import Mathlib

/-!
Verification development for the news-worth-watching aggregation pipeline.

The definitions below are a shallow embedding of the TypeScript sources:
  - src/workers/src/index.ts (the older Cloudflare worker),
  - src/unnamed/part_008 (the newer worker, same pipeline with refactored helpers),
  - src/unnamed/part_009 (two versions of the per-source scrapers and the generic
    HTML parser: the first pairs with the older worker and degrades every scraper
    failure to the empty list; the second pairs with the newer worker, fetches
    updated URLs, and its Governo dos Açores and Diário da República scrapers
    return built-in fallback test items from their catch blocks),
  - src/src/utils/newsFetcher.ts (the client retrieval pipeline).

Modelling conventions, stated once here:
  - Timestamps: a publishedAt field holds an ISO string in the source and every
    comparison goes through new Date(s).getTime(); we model the field directly as
    the Int millisecond value of that conversion.
  - JS Array.prototype.sort with a comparator that induces a total preorder is
    required by ECMA-262 to be a sorted, stable permutation of its input, which
    determines the result uniquely; we model it as List.insertionSort, the
    canonical stable sort.
  - Platform builtins that parse free-form text (new Date(string), new URL(string))
    are modelled as function parameters returning Option; none models the builtin
    throwing (or Invalid Date, whose toISOString throws RangeError).
  - Exceptions are modelled with Except Unit; try/catch from the source is an
    explicit match on the Except value.
  - Network and KV-store behaviour is abstracted into oracles (WorldBehavior),
    while the side effects performed are tracked as an explicit trace.
-/

namespace NewsWorth

/-- The canonical item shape, from the NewsItem interface of
src/workers/src/index.ts lines 1-10 (tags and summary are optional in TS and
defaulted here; relevanceScore is never written by the worker and is omitted). -/
structure NewsItem where
  id : String
  title : String
  source : String
  url : String
  publishedAt : Int
  tags : List String := []
  summary : String := ""
deriving DecidableEq, Repr

/-- Adapter kind of a source, from the Source interface (index.ts lines 12-16). -/
inductive SourceType
  | rss
  | api
  | scrape
deriving DecidableEq, Repr

/-- A source descriptor, from the Source interface (index.ts lines 12-16). -/
structure Source where
  label : String
  url : String
  type : SourceType
deriving DecidableEq, Repr

/-- A named group of sources, from the SourceCategory interface (index.ts 18-21). -/
structure SourceCategory where
  name : String
  sources : List Source
deriving DecidableEq, Repr

/-- Helper for JS String.prototype.includes: does pat occur as a prefix of s. -/
def charsLeadWith : List Char → List Char → Bool
  | [], _ => true
  | _ :: _, [] => false
  | p :: ps, c :: cs => p == c && charsLeadWith ps cs

/-- Helper for JS String.prototype.includes: does pat occur anywhere in s. -/
def charsContain (pat : List Char) : List Char → Bool
  | [] => pat.isEmpty
  | c :: cs => charsLeadWith pat (c :: cs) || charsContain pat cs

/-- Model of JS String.prototype.includes(pat) on s. -/
def strIncludes (s pat : String) : Bool :=
  charsContain pat.data s.data

/-- Model of JS toLowerCase, applied per character (ASCII case folding; the
vocabulary terms below that contain accented letters are already lowercase). -/
def lowerString (s : String) : String :=
  String.mk (s.data.map Char.toLower)

/-- Model of JS String.prototype.trim, stripping whitespace from both ends. -/
def trimChars (l : List Char) : List Char :=
  ((l.dropWhile Char.isWhitespace).reverse.dropWhile Char.isWhitespace).reverse

/-- String version of trimChars. -/
def trimString (s : String) : String :=
  String.mk (trimChars s.data)

/-- The base64 alphabet, index 0-63, as used by btoa. -/
def b64Char (n : Nat) : Char :=
  if n < 26 then Char.ofNat (65 + n)
  else if n < 52 then Char.ofNat (97 + (n - 26))
  else if n < 62 then Char.ofNat (48 + (n - 52))
  else if n = 62 then '+'
  else '/'

/-- Base64 encoding of a byte sequence, three input bytes to four output
characters, with '=' padding; this is btoa on latin-1 text. -/
def b64Encode : List Nat → List Char
  | [] => []
  | [b0] => [b64Char (b0 / 4), b64Char (b0 % 4 * 16), '=', '=']
  | [b0, b1] => [b64Char (b0 / 4), b64Char (b0 % 4 * 16 + b1 / 16), b64Char (b1 % 16 * 4), '=']
  | b0 :: b1 :: b2 :: rest =>
    b64Char (b0 / 4) :: b64Char (b0 % 4 * 16 + b1 / 16) ::
      b64Char (b1 % 16 * 4 + b2 / 64) :: b64Char (b2 % 64) :: b64Encode rest

/-- The character class kept by the regex replace in generateId. -/
def isAlphaNum (c : Char) : Bool :=
  (65 ≤ c.toNat && c.toNat ≤ 90) || (97 ≤ c.toNat && c.toNat ≤ 122) ||
    (48 ≤ c.toNat && c.toNat ≤ 57)

/-- generateId from index.ts lines 76-78 and part_008 lines 76-78:
btoa(url).replace(non-alphanumerics, empty).substring(0, 12). Characters are
taken as their code points; btoa throws for code points above 255, which no
theorem below exercises. -/
def generateId (url : String) : String :=
  String.mk (((b64Encode (url.data.map Char.toNat)).filter isAlphaNum).take 12)

/-- extractTags from index.ts lines 91-114: case-insensitive substring matching
of title plus summary against the fixed topic vocabularies, in source order. -/
def extractTags (title summaryText : String) : List String :=
  let text := lowerString (title ++ " " ++ summaryText)
  (if strIncludes text "açores" || strIncludes text "azores" then ["azores"] else []) ++
  (if strIncludes text "são miguel" || strIncludes text "sao miguel" then ["sao-miguel"] else []) ++
  (if strIncludes text "ponta delgada" then ["ponta-delgada"] else []) ++
  (if strIncludes text "permaculture" || strIncludes text "permacultura" then ["permaculture"] else []) ++
  (if strIncludes text "agroforestry" || strIncludes text "agrofloresta" then ["agroforestry"] else []) ++
  (if strIncludes text "regeneration" || strIncludes text "regeneração" then ["regeneration"] else []) ++
  (if strIncludes text "sustainability" || strIncludes text "sustentabilidade" then ["sustainability"] else []) ++
  (if strIncludes text "climate" || strIncludes text "clima" then ["climate"] else []) ++
  (if strIncludes text "environment" || strIncludes text "ambiente" then ["environment"] else []) ++
  (if strIncludes text "policy" || strIncludes text "política" then ["policy"] else []) ++
  (if strIncludes text "research" || strIncludes text "investigação" then ["research"] else []) ++
  (if strIncludes text "innovation" || strIncludes text "inovação" then ["innovation"] else [])

/-- Model of hostname.replace(www-dot, empty string): JS String.replace with a
string pattern replaces only the first occurrence. -/
def stripWww (h : String) : String :=
  match h.splitOn "www." with
  | [] => h
  | [s] => s
  | s :: t :: rest => s ++ t ++ String.join (rest.map (fun r => "www." ++ r))

/-- extractSourceFromUrl from index.ts lines 81-88: hostname of new URL(url)
with a leading www-dot removed, or the string unknown when URL parsing throws.
The platform URL parser is abstracted as the hostnameOf parameter. -/
def extractSourceFromUrl (hostnameOf : String → Option String) (url : String) : String :=
  match hostnameOf url with
  | some h => stripWww h
  | none => "unknown"

/-- Descending-recency order used by the merge comparator (index.ts line 225):
item a precedes item b when b.publishedAt is at most a.publishedAt. -/
def newsDescLe : NewsItem → NewsItem → Prop :=
  fun a b => b.publishedAt ≤ a.publishedAt

instance : DecidableRel newsDescLe :=
  fun a b => inferInstanceAs (Decidable (b.publishedAt ≤ a.publishedAt))

instance : IsTotal NewsItem newsDescLe :=
  ⟨fun a b => Int.le_total b.publishedAt a.publishedAt⟩

instance : IsTrans NewsItem newsDescLe :=
  ⟨fun _ _ _ hab hbc => le_trans hbc hab⟩

/-- The set of URLs already present, from index.ts line 220 (a JS Set is used
only for membership tests, so a list with contains is a faithful model). -/
def existingUrlSet (existingNews : List NewsItem) : List String :=
  existingNews.map (fun item => item.url)

/-- The incoming items whose URL is not already present, index.ts line 221. -/
def uniqueNewItems (existingNews newNews : List NewsItem) : List NewsItem :=
  newNews.filter (fun item => !((existingUrlSet existingNews).contains item.url))

/-- mergeNewsItems from index.ts lines 219-230 (identical in part_008 lines
292-303): drop incoming items whose URL already occurs, concatenate, sort
descending by publishedAt with the stable platform sort, keep the first 100. -/
def mergeNewsItems (existingNews newNews : List NewsItem) : List NewsItem :=
  (((existingNews ++ uniqueNewItems existingNews newNews).insertionSort newsDescLe)).take 100

/-- The fields the RSS item regexes of parseRSSFeed (index.ts lines 42-48)
extract from one item block: each is the first capture group of the title,
link, pubDate and description match, when the match succeeds. The markup-strip
regex applied to title and description is abstracted: fields hold the stripped
capture text. -/
structure RawEntry where
  title : Option String
  link : Option String
  pubDate : Option String
  description : Option String
deriving DecidableEq, Repr

/-- Construction of one NewsItem inside the parseRSSFeed loop, index.ts lines
50-64: trimmed title and url, id from the url, source from the url authority,
the already-resolved publishedAt, trimmed description as summary, tags from
title and summary. -/
def rssItem (hostnameOf : String → Option String) (tRaw lRaw : String)
    (publishedAt : Int) (description : Option String) : NewsItem :=
  let title := trimString tRaw
  let url := trimString lRaw
  let summaryText := trimString (description.getD "")
  { id := generateId url
    title := title
    source := extractSourceFromUrl hostnameOf url
    url := url
    publishedAt := publishedAt
    summary := summaryText
    tags := extractTags title summaryText }

/-- The while loop of parseRSSFeed, index.ts lines 42-66. An entry without
title or link match is skipped (line 50). When pubDate is present, new
Date(text).toISOString() is evaluated: dateParse none models Invalid Date, on
which toISOString throws RangeError; the exception escapes the loop, so it is
modelled as Except.error, while an absent pubDate defaults to now (line 53). -/
def parseRSSLoop (hostnameOf : String → Option String) (dateParse : String → Option Int)
    (now : Int) : List RawEntry → Except Unit (List NewsItem)
  | [] => Except.ok []
  | e :: rest =>
    match e.title, e.link with
    | some tRaw, some lRaw =>
      match (match e.pubDate with
             | some d =>
               (match dateParse d with
                | some ts => Except.ok ts
                | none => Except.error ())
             | none => Except.ok now) with
      | Except.error _ => Except.error ()
      | Except.ok publishedAt =>
        match parseRSSLoop hostnameOf dateParse now rest with
        | Except.error _ => Except.error ()
        | Except.ok restItems =>
          Except.ok (rssItem hostnameOf tRaw lRaw publishedAt e.description :: restItems)
    | some _, none => parseRSSLoop hostnameOf dateParse now rest
    | none, _ => parseRSSLoop hostnameOf dateParse now rest

/-- parseRSSFeed, index.ts lines 32-73: the whole function body sits in one
try/catch whose handler returns the empty list, so any exception thrown while
processing entries discards the entire feed. -/
def parseRSSFeedModel (hostnameOf : String → Option String)
    (dateParse : String → Option Int) (now : Int) (entries : List RawEntry) : List NewsItem :=
  match parseRSSLoop hostnameOf dateParse now entries with
  | Except.ok items => items
  | Except.error _ => []

/-- One raw scraped item, from the ScrapedNewsItem interface of part_009
lines 1-6 (publishedAt modelled as the millisecond timestamp). -/
structure ScrapedNewsItem where
  title : String
  url : String
  publishedAt : Int
  summary : String
deriving DecidableEq, Repr

/-- The capture groups the selector regexes of parseNewsFromHTML extract from
one container match (part_009 lines 24-52); date is some d exactly when a date
selector is configured and matches with capture d, and likewise for summary. -/
structure RawContainer where
  title : Option String
  link : Option String
  date : Option String
  summary : Option String
deriving DecidableEq, Repr

/-- parseNewsFromHTML, part_009 lines 9-67. Containers missing the title or
link match are skipped. publishedAt starts as now; a matched date selector is
parsed with new Date, and an unparseable date makes toISOString throw, which
the per-item try/catch turns into skipping that container (lines 60-63). -/
def parseNewsFromHTMLModel (dateParse : String → Option Int) (now : Int) :
    List RawContainer → List ScrapedNewsItem
  | [] => []
  | c :: rest =>
    match c.title, c.link with
    | some tRaw, some lRaw =>
      (match c.date with
       | some d =>
         (match dateParse d with
          | some ts =>
            [{ title := trimString tRaw, url := lRaw, publishedAt := ts,
               summary := trimString (c.summary.getD "") }]
          | none => [])
       | none =>
         [{ title := trimString tRaw, url := lRaw, publishedAt := now,
            summary := trimString (c.summary.getD "") }]) ++
      parseNewsFromHTMLModel dateParse now rest
    | some _, none => parseNewsFromHTMLModel dateParse now rest
    | none, _ => parseNewsFromHTMLModel dateParse now rest

/-- convertScrapedToNews, part_008 lines 175-185: map each scraped item to the
canonical shape, deriving id from the url, source from the url authority and
tags from title and summary. -/
def convertScrapedToNews (hostnameOf : String → Option String)
    (scrapedItems : List ScrapedNewsItem) : List NewsItem :=
  scrapedItems.map (fun item =>
    { id := generateId item.url
      title := item.title
      source := extractSourceFromUrl hostnameOf item.url
      url := item.url
      publishedAt := item.publishedAt
      summary := item.summary
      tags := extractTags item.title item.summary })

/-- Observable side effects of a worker run: a request to an upstream source,
a KV read, a KV write, or a politeness delay. -/
inductive Effect
  | upstreamFetch (url : String)
  | kvGet (key : String)
  | kvPut (key : String)
  | delayMs (n : Nat)
deriving DecidableEq, Repr

/-- A computation that records its effect trace and may end in a thrown
JS exception, modelled as Except.error. -/
def Traced (α : Type) : Type :=
  List Effect × Except Unit α

/-- Traced value with an empty trace. -/
def tpure {α : Type} (a : α) : Traced α :=
  ([], Except.ok a)

/-- Sequencing of traced computations; an exception skips the continuation. -/
def tbind {α β : Type} (x : Traced α) (f : α → Traced β) : Traced β :=
  match x with
  | (tr, Except.ok a) => ((tr ++ (f a).1), (f a).2)
  | (tr, Except.error e) => (tr, Except.error e)

/-- Model of a JS try/catch around a traced computation. -/
def tcatch {α : Type} (x : Traced α) (handler : Unit → Traced α) : Traced α :=
  match x with
  | (tr, Except.ok a) => (tr, Except.ok a)
  | (tr, Except.error _) => ((tr ++ (handler ()).1), (handler ()).2)

/-- Record one effect. -/
def temit (e : Effect) : Traced Unit :=
  ([e], Except.ok ())

/-- Run metadata as written by the workers (index.ts lines 286-293, part_008
lines 350-364); lastCronRun is only written by the newer worker, newItemsAdded
is a JS number that can be negative. -/
structure FetchMetadata where
  lastFetch : String
  lastCronRun : Option String
  totalItems : Nat
  newItemsAdded : Int
  sources : List String
deriving DecidableEq, Repr

/-- Outcomes of the KV calls a run performs. An Except.error models the call
(or the JSON.parse of its result) throwing; ok none models a missing key. -/
structure KVBehavior where
  latestNews : Except Unit (Option (List NewsItem))
  metadata : Except Unit (Option FetchMetadata)
  putResult : String → Except Unit Unit

/-- The environment a worker request runs against: per-source outcome of the
network fetch plus parse (Except.error models a thrown network or parse
failure), and the KV binding, absent when env.NEWS_KV is falsy. -/
structure WorldBehavior where
  sourceResult : Source → Except Unit (List NewsItem)
  kv : Option KVBehavior

/-- The fixed source configuration, index.ts lines 177-200 (identical to
getNewsSources in part_008 lines 213-238). -/
def newsSources : List SourceCategory :=
  [ { name := "Azores · Policy & Regional"
      sources :=
        [ { label := "Governo dos Açores", url := "https://www.azores.gov.pt/pt", type := SourceType.scrape }
        , { label := "Diário da República", url := "https://dre.pt/web/guest/home", type := SourceType.scrape }
        , { label := "INOVA (Inovação Açores)", url := "https://inova.azores.gov.pt", type := SourceType.scrape } ] }
  , { name := "São Miguel · Environment & Research"
      sources :=
        [ { label := "Azores Geopark", url := "https://azoresgeopark.com", type := SourceType.scrape }
        , { label := "Universidade dos Açores", url := "https://www.uac.pt", type := SourceType.scrape } ] }
  , { name := "Permaculture & Regeneration"
      sources :=
        [ { label := "FAO Agroecology", url := "https://www.fao.org/agroecology/en/", type := SourceType.rss }
        , { label := "EU Environment", url := "https://environment.ec.europa.eu/news_en?format=rss", type := SourceType.rss } ] } ]

/-- All configured sources in acquisition order. -/
def allSources : List Source :=
  (newsSources.map (fun c => c.sources)).flatten

/-- The upstream URL the scraper routed to by label fetches in the older
pipeline, from the label dispatch of scrapeWebsite (index.ts lines 143-156)
and the fetch calls of the older scrapers (part_009, first version); none when
no scraper matches the label. -/
def scraperUrl (label : String) : Option String :=
  if strIncludes label "Governo dos Açores" then some "https://www.azores.gov.pt/pt"
  else if strIncludes label "Diário da República" then some "https://dre.pt/web/guest/home"
  else if strIncludes label "INOVA" then some "https://inova.azores.gov.pt"
  else if strIncludes label "Azores Geopark" then some "https://azoresgeopark.com"
  else if strIncludes label "Universidade dos Açores" then some "https://www.uac.pt"
  else none

/-- parseRSSFeed viewed at the effect level (index.ts lines 32-73): fetch the
feed URL, then the body is the per-world outcome; the try/catch turns any
thrown error into the empty list. -/
def parseRSSFeedT (w : WorldBehavior) (s : Source) : Traced (List NewsItem) :=
  tcatch
    (tbind (temit (Effect.upstreamFetch s.url)) (fun _ => ([], w.sourceResult s)))
    (fun _ => tpure [])

/-- scrapeWebsite of the older worker (index.ts lines 138-173) with the older
scrapers (part_009, first version): route by label to a scraper that fetches
its hardcoded URL; an unmatched label returns the empty list; the try/catch,
and the catch inside each of the five older scrapers, degrade every error to
the empty list. The newer scrapers behave differently and are modelled
separately by routeToScraperT below. -/
def scrapeWebsiteT (w : WorldBehavior) (s : Source) : Traced (List NewsItem) :=
  tcatch
    (match scraperUrl s.label with
     | some u => tbind (temit (Effect.upstreamFetch u)) (fun _ => ([], w.sourceResult s))
     | none => tpure [])
    (fun _ => tpure [])

/-- fetchNewsFromSource of the older worker, index.ts lines 117-135: dispatch
on the adapter kind (api sources return the empty list without fetching), with
a surrounding try/catch that degrades any error to the empty list. -/
def fetchNewsFromSourceT (w : WorldBehavior) (s : Source) : Traced (List NewsItem) :=
  tcatch
    (match s.type with
     | SourceType.rss => parseRSSFeedT w s
     | SourceType.api => tpure []
     | SourceType.scrape => scrapeWebsiteT w s)
    (fun _ => tpure [])

/-- The inner loop of fetchAllNews over the sources of one category, index.ts
lines 205-212: fetch, append, then the politeness delay of 1000 ms. -/
def fetchSourcesLoopT (w : WorldBehavior) : List Source → Traced (List NewsItem)
  | [] => tpure []
  | s :: rest =>
    tbind (fetchNewsFromSourceT w s) (fun news =>
    tbind (temit (Effect.delayMs 1000)) (fun _ =>
    tbind (fetchSourcesLoopT w rest) (fun more =>
    tpure (news ++ more))))

/-- The outer loop of fetchAllNews over the categories, index.ts lines 204-213. -/
def fetchCategoriesLoopT (w : WorldBehavior) : List SourceCategory → Traced (List NewsItem)
  | [] => tpure []
  | c :: rest =>
    tbind (fetchSourcesLoopT w c.sources) (fun news =>
    tbind (fetchCategoriesLoopT w rest) (fun more =>
    tpure (news ++ more)))

/-- fetchAllNews, index.ts lines 176-216. -/
def fetchAllNewsT (w : WorldBehavior) : Traced (List NewsItem) :=
  fetchCategoriesLoopT w newsSources

/-- The per-item KV writes of storeNewsData, index.ts lines 279-283: one put
per merged item; a throwing put escapes to the enclosing catch. -/
def putItemsLoopT (kv : KVBehavior) : List NewsItem → Traced Unit
  | [] => tpure ()
  | item :: rest =>
    tbind (temit (Effect.kvPut ("news-" ++ item.id))) (fun _ =>
    tbind (([], kv.putResult ("news-" ++ item.id)) : Traced Unit) (fun _ =>
    putItemsLoopT kv rest))

/-- The KV sequence of storeNewsData once NEWS_KV is present, index.ts lines
255-299: read and parse the existing collection under its own try/catch that
falls back to the empty list (lines 256-264), merge, write the collection,
write each item, write the metadata. -/
def storeKvSequenceT (kv : KVBehavior) (news : List NewsItem) : Traced Unit :=
  tbind
    (tcatch (tbind (temit (Effect.kvGet "latest-news")) (fun _ => ([], kv.latestNews)))
            (fun _ => tpure none))
    (fun stored =>
  let existingNews := stored.getD []
  let mergedNews := mergeNewsItems existingNews news
  tbind (temit (Effect.kvPut "latest-news")) (fun _ =>
  tbind (([], kv.putResult "latest-news") : Traced Unit) (fun _ =>
  tbind (putItemsLoopT kv mergedNews) (fun _ =>
  tbind (temit (Effect.kvPut "fetch-metadata")) (fun _ =>
  tbind (([], kv.putResult "fetch-metadata") : Traced Unit) (fun _ =>
  tpure ()))))))

/-- storeNewsData, index.ts lines 233-312: an empty batch returns early; a
missing KV binding only logs; the KV sequence runs under a catch that swallows
KV errors (lines 301-304), and the whole body under another catch (309-311),
so storeNewsData never throws. -/
def storeNewsDataT (w : WorldBehavior) (news : List NewsItem) : Traced Unit :=
  tcatch
    (if news.length == 0 then tpure ()
     else
       match w.kv with
       | some kv => tcatch (storeKvSequenceT kv news) (fun _ => tpure ())
       | none => tpure ())
    (fun _ => tpure ())

/-- Response of the manual trigger, reduced to the fields the contract is
about (index.ts lines 326-351). -/
structure PostResponse where
  success : Bool
  count : Nat
  status : Nat
deriving DecidableEq, Repr

/-- The POST / handler of the older worker, index.ts lines 321-353: run
fetchAllNews, store, and answer success with the fetched count; the catch
branch answers a 500 failure payload. -/
def postHandlerT (w : WorldBehavior) : Traced PostResponse :=
  tcatch
    (tbind (fetchAllNewsT w) (fun news =>
     tbind (storeNewsDataT w news) (fun _ =>
     tpure { success := true, count := news.length, status := 200 })))
    (fun _ => tpure { success := false, count := 0, status := 500 })

/-- Response of the older GET /news endpoint, reduced to the relevant fields
(index.ts lines 428-434). -/
structure GetNewsResponse where
  success : Bool
  count : Nat
  news : List NewsItem
  fetchedAt : String
deriving DecidableEq, Repr

/-- The KV reads of GET /news, index.ts lines 397-414: one try block reads and
parses the collection, then reads the metadata; the news variable mutated
before a later throw keeps its value in the catch, which only logs. -/
def readStoredT (kv : KVBehavior) (nowIso : String) : Traced (List NewsItem × String) :=
  tbind (temit (Effect.kvGet "latest-news")) (fun _ =>
    match kv.latestNews with
    | Except.error _ => ([], Except.ok ([], nowIso))
    | Except.ok stored =>
      let news := stored.getD []
      tbind (temit (Effect.kvGet "fetch-metadata")) (fun _ =>
        match kv.metadata with
        | Except.error _ => ([], Except.ok (news, nowIso))
        | Except.ok m =>
          ([], Except.ok (news, match m with
                                | some meta => meta.lastFetch
                                | none => nowIso))))

/-- The GET /news handler of the older worker, index.ts lines 390-441: read
the stored collection; when it is empty, fetch fresh data from all sources and
store it when non-empty; finally answer with the collection. -/
def getNewsHandlerT (w : WorldBehavior) (nowIso : String) : Traced GetNewsResponse :=
  tbind
    (match w.kv with
     | none => tpure ([], nowIso)
     | some kv => readStoredT kv nowIso)
    (fun p =>
      if p.1.length == 0 then
        tbind (fetchAllNewsT w) (fun fresh =>
        tbind (if fresh.length > 0 then storeNewsDataT w fresh else tpure ()) (fun _ =>
        tpure { success := true, count := fresh.length, news := fresh, fetchedAt := nowIso }))
      else
        tpure { success := true, count := p.1.length, news := p.1, fetchedAt := p.2 })

/-- Response of the newer GET /news-loader endpoint, reduced to the relevant
fields (part_008 lines 772-778). -/
structure LoaderResponse where
  success : Bool
  count : Nat
  news : List NewsItem
  lastCronRun : Option String
deriving DecidableEq, Repr

/-- The KV reads of GET /news-loader, part_008 lines 756-769, with the same
mutation-through-catch behaviour as readStoredT; the metadata value is kept
for the response. -/
def newsLoaderReadT (kv : KVBehavior) : Traced (List NewsItem × Option FetchMetadata) :=
  tbind (temit (Effect.kvGet "latest-news")) (fun _ =>
    match kv.latestNews with
    | Except.error _ => ([], Except.ok ([], none))
    | Except.ok stored =>
      let news := stored.getD []
      tbind (temit (Effect.kvGet "fetch-metadata")) (fun _ =>
        match kv.metadata with
        | Except.error _ => ([], Except.ok (news, none))
        | Except.ok m => ([], Except.ok (news, m))))

/-- The GET /news-loader handler of the newer worker, part_008 lines 747-795:
return the stored data only, with the stored lastCronRun, and no acquisition
of any kind. -/
def newsLoaderHandlerT (w : WorldBehavior) : Traced LoaderResponse :=
  tbind
    (match w.kv with
     | none => tpure ([], none)
     | some kv => newsLoaderReadT kv)
    (fun p =>
      tpure { success := true
              count := p.1.length
              news := p.1
              lastCronRun := match p.2 with
                             | some m => m.lastCronRun
                             | none => none })

/-- Why the live request failed, from the client error taxonomy in
newsFetcher.ts (abort timeout versus any other transport failure). -/
inductive LiveFailure
  | timeout
  | transport
deriving DecidableEq, Repr

/-- The live response as seen by loadStoredNews: the transport-level ok flag
and the decoded payload (part_008 response shape). -/
structure LiveResponse where
  httpOk : Bool
  success : Bool
  count : Nat
  news : List NewsItem
  lastCronRun : Option String
deriving DecidableEq, Repr

/-- What loadStoredNews resolves with: the full live response, or the item
list of the bundled fixture. -/
inductive LoadResult
  | live (resp : LiveResponse)
  | fixture (items : List NewsItem)
deriving DecidableEq, Repr

/-- The fallback tail of loadStoredNews, newsFetcher.ts lines 279-290: load
the fixture and resolve with its items; when the fixture also fails, rethrow. -/
def fallbackLoad (fixtureData : Except Unit (List NewsItem)) : Except Unit LoadResult :=
  match fixtureData with
  | Except.ok items => Except.ok (LoadResult.fixture items)
  | Except.error _ => Except.error ()

/-- loadStoredNews, newsFetcher.ts lines 222-291. The offline switch loads the
fixture directly and degrades a fixture failure to the empty list (lines
229-240). Otherwise the live endpoint is queried under the timeout: a
rejected fetch (timeout or transport), a non-ok HTTP status, or a payload
with success false all throw into the catch, which falls back to the fixture.
The oracle live carries the outcome of fetchWithTimeout plus JSON decoding. -/
def loadStoredNews (offline : Bool) (live : Except LiveFailure LiveResponse)
    (fixtureData : Except Unit (List NewsItem)) : Except Unit LoadResult :=
  if offline then
    match fixtureData with
    | Except.ok items => Except.ok (LoadResult.fixture items)
    | Except.error _ => Except.ok (LoadResult.fixture [])
  else
    match live with
    | Except.ok resp =>
      if resp.httpOk then
        if resp.success then Except.ok (LoadResult.live resp)
        else fallbackLoad fixtureData
      else fallbackLoad fixtureData
    | Except.error _ => fallbackLoad fixtureData

/-- Concrete item: url u, newer. -/
def c1a : NewsItem :=
  { id := "idA", title := "first", source := "s", url := "u", publishedAt := 5 }

/-- Concrete item: same url u as c1a, older, different id and title. -/
def c1b : NewsItem :=
  { id := "idB", title := "second", source := "s", url := "u", publishedAt := 3 }

/-- Concrete item: url w, distinct from u. -/
def c1c : NewsItem :=
  { id := "idC", title := "third", source := "s", url := "w", publishedAt := 9 }

/-- A collection of 101 items with pairwise distinct urls and ids. -/
def c2X : List NewsItem :=
  (List.range 101).map (fun (i : Nat) =>
    { id := toString i, title := "t", source := "s", url := toString i,
      publishedAt := Int.ofNat i })

/-- Platform URL parser stub that always throws, so source becomes unknown. -/
def noHost : String → Option String := fun _ => none

/-- Platform date parser stub on which every date string is Invalid Date. -/
def noDate : String → Option Int := fun _ => none

/-- An RSS entry with title and link but no pubDate element. -/
def c5goodEntry : RawEntry :=
  { title := some "Good", link := some "http://ok.example", pubDate := none,
    description := none }

/-- An RSS entry whose pubDate element is present but unparseable. -/
def c5badEntry : RawEntry :=
  { title := some "Bad", link := some "http://bad.example", pubDate := some "not a date",
    description := none }

/-- A scraped container with title and link but no date match. -/
def c5goodContainer : RawContainer :=
  { title := some "Good", link := some "http://ok.example", date := none, summary := none }

/-- A scraped container whose date match is present but unparseable. -/
def c5badContainer : RawContainer :=
  { title := some "Bad", link := some "http://bad.example", date := some "not a date",
    summary := none }

/-- An RSS entry for the cross-pipeline id check. -/
def c9entry : RawEntry :=
  { title := some "Alpha", link := some "http://x", pubDate := none, description := none }

/-- A scraped container with the same url for the cross-pipeline id check. -/
def c9container : RawContainer :=
  { title := some "Beta", link := some "http://x", date := none, summary := none }

/-- The item the RSS pipeline produces from c9entry at acquisition time 7. -/
def c9rss : NewsItem :=
  { id := generateId "http://x", title := "Alpha", source := "unknown", url := "http://x",
    publishedAt := 7, tags := [], summary := "" }

/-- The item the scraping pipeline produces from c9container at time 9. -/
def c9scraped : NewsItem :=
  { id := generateId "http://x", title := "Beta", source := "unknown", url := "http://x",
    publishedAt := 9, tags := [], summary := "" }

/-- The pure value the older worker's fetchNewsFromSource resolves with for
one source, as a function of the adapter kind, the label routing and the
per-source outcome: in the older pipeline failures and unrouted labels degrade
to the empty list, and api sources are hardcoded empty. -/
def sourceItems (w : WorldBehavior) (s : Source) : List NewsItem :=
  match w.sourceResult s with
  | Except.ok l =>
    (match s.type with
     | SourceType.rss => l
     | SourceType.api => []
     | SourceType.scrape =>
       (match scraperUrl s.label with
        | some _ => l
        | none => []))
  | Except.error _ => []

/-- A world with no KV binding and sources that return nothing. -/
def c4w : WorldBehavior :=
  { sourceResult := fun _ => Except.ok [], kv := none }

/-- A KV binding holding a non-empty stored collection. -/
def c4kvStored : KVBehavior :=
  { latestNews := Except.ok (some [c1a]), metadata := Except.ok none,
    putResult := fun _ => Except.ok () }

/-- A world with a non-empty stored collection. -/
def c4wStored : WorldBehavior :=
  { sourceResult := fun _ => Except.ok [], kv := some c4kvStored }

/-- A single fetched item for the trigger counterexample. -/
def c6item : NewsItem :=
  { id := "i", title := "t", source := "s", url := "u", publishedAt := 0 }

/-- A KV binding whose reads succeed but whose every write throws: the store
is unavailable during the save step. -/
def c6kv : KVBehavior :=
  { latestNews := Except.ok none, metadata := Except.ok none,
    putResult := fun _ => Except.error () }

/-- A world where all sources succeed but the store rejects every write. -/
def c6w : WorldBehavior :=
  { sourceResult := fun _ => Except.ok [c6item], kv := some c6kv }

/-- A world in which every source fetch fails. -/
def c7wFail : WorldBehavior :=
  { sourceResult := fun _ => Except.error (), kv := none }

/-- The configured FAO feed source, the first rss entry of newsSources. -/
def faoSource : Source :=
  { label := "FAO Agroecology", url := "https://www.fao.org/agroecology/en/",
    type := SourceType.rss }

/-- The fallback test item the newer scrapeAzoresGovernment returns from its
catch block (part_009, second version, lines 319-328); publishedAt is the
acquisition time. -/
def govFallbackItem (now : Int) : ScrapedNewsItem :=
  { title := "Test News from Azores Government (Fallback)"
    url := "https://portal.azores.gov.pt/test-news-fallback"
    publishedAt := now
    summary := "This is a fallback test news item to verify the system works." }

/-- The mock item the newer scrapeDiarioRepublica returns on a successful
fetch, ignoring the fetched body (part_009, second version, lines 338-346). -/
def dreMockItem (now : Int) : ScrapedNewsItem :=
  { title := "Test News from Diário da República"
    url := "https://dre.pt/web/guest/home/test-news"
    publishedAt := now
    summary := "This is a test news item to verify the cron job and KV storage are working properly." }

/-- The fallback test item the newer scrapeDiarioRepublica returns from its
catch block (part_009, second version, lines 347-357). -/
def dreFallbackItem (now : Int) : ScrapedNewsItem :=
  { title := "Test News from Diário da República (Fallback)"
    url := "https://dre.pt/web/guest/home/test-news-fallback"
    publishedAt := now
    summary := "This is a fallback test news item to verify the system works." }

/-- routeToScraper of the newer worker (part_008 lines 157-172) composed with
the newer scrapers (part_009, second version): each scraper fetches its own
updated URL, and the per-world outcome stands for the fetch plus markup
parsing. The Governo dos Açores scraper returns a one-item fallback list from
its catch; the Diário da República scraper returns a fixed mock item on
success (discarding the body) and a one-item fallback list from its catch; the
INOVA, Azores Geopark and Universidade dos Açores scrapers degrade errors to
the empty list; an unmatched label resolves with the empty list. -/
def routeToScraperT (oracle : Source → Except Unit (List ScrapedNewsItem)) (now : Int)
    (s : Source) : Traced (List ScrapedNewsItem) :=
  if strIncludes s.label "Governo dos Açores" then
    tcatch
      (tbind (temit (Effect.upstreamFetch "https://portal.azores.gov.pt"))
        (fun _ => ([], oracle s)))
      (fun _ => tpure [govFallbackItem now])
  else if strIncludes s.label "Diário da República" then
    tcatch
      (tbind (temit (Effect.upstreamFetch "https://dre.pt/web/guest/home"))
        (fun _ => tbind (([], oracle s) : Traced (List ScrapedNewsItem))
          (fun _ => tpure [dreMockItem now])))
      (fun _ => tpure [dreFallbackItem now])
  else if strIncludes s.label "INOVA" then
    tcatch
      (tbind (temit (Effect.upstreamFetch "https://inova.azores.gov.pt"))
        (fun _ => ([], oracle s)))
      (fun _ => tpure [])
  else if strIncludes s.label "Azores Geopark" then
    tcatch
      (tbind (temit (Effect.upstreamFetch "https://www.azoresgeopark.com/"))
        (fun _ => ([], oracle s)))
      (fun _ => tpure [])
  else if strIncludes s.label "Universidade dos Açores" then
    tcatch
      (tbind (temit (Effect.upstreamFetch "https://noticias.uac.pt/feed/"))
        (fun _ => ([], oracle s)))
      (fun _ => tpure [])
  else tpure []

/-- The pure value the newer routed scraper resolves with: the scraped items
on success, and on a thrown failure the fallback test item for the Governo dos
Açores and Diário da República scrapers, the empty list for the others. -/
def scraperResult (oracle : Source → Except Unit (List ScrapedNewsItem)) (now : Int)
    (s : Source) : List ScrapedNewsItem :=
  if strIncludes s.label "Governo dos Açores" then
    (match oracle s with
     | Except.ok l => l
     | Except.error _ => [govFallbackItem now])
  else if strIncludes s.label "Diário da República" then
    (match oracle s with
     | Except.ok _ => [dreMockItem now]
     | Except.error _ => [dreFallbackItem now])
  else if strIncludes s.label "INOVA" then
    (match oracle s with
     | Except.ok l => l
     | Except.error _ => [])
  else if strIncludes s.label "Azores Geopark" then
    (match oracle s with
     | Except.ok l => l
     | Except.error _ => [])
  else if strIncludes s.label "Universidade dos Açores" then
    (match oracle s with
     | Except.ok l => l
     | Except.error _ => [])
  else []

/-- scrapeWebsite of the newer worker, part_008 lines 188-210: route to the
scraper, return the empty list when it scraped nothing, otherwise convert the
scraped items to the canonical shape; the try/catch degrades any remaining
error to the empty list. -/
def scrapeWebsiteNewT (oracle : Source → Except Unit (List ScrapedNewsItem))
    (hostnameOf : String → Option String) (now : Int) (s : Source) :
    Traced (List NewsItem) :=
  tcatch
    (tbind (routeToScraperT oracle now s) (fun scrapedItems =>
      if scrapedItems.length == 0 then tpure []
      else tpure (convertScrapedToNews hostnameOf scrapedItems)))
    (fun _ => tpure [])

/-- fetchNewsFromSource of the newer worker, part_008 lines 136-154: the same
adapter-kind dispatch as the older worker, with the newer scrapeWebsite. -/
def fetchNewsFromSourceNewT (oracle : Source → Except Unit (List ScrapedNewsItem))
    (hostnameOf : String → Option String) (now : Int) (w : WorldBehavior) (s : Source) :
    Traced (List NewsItem) :=
  tcatch
    (match s.type with
     | SourceType.rss => parseRSSFeedT w s
     | SourceType.api => tpure []
     | SourceType.scrape => scrapeWebsiteNewT oracle hostnameOf now s)
    (fun _ => tpure [])

/-- fetchNewsFromSourceWithErrorHandling, part_008 lines 241-251: one more
try/catch around fetchNewsFromSource that degrades errors to the empty list. -/
def fetchNewsFromSourceWithErrorHandlingT (oracle : Source → Except Unit (List ScrapedNewsItem))
    (hostnameOf : String → Option String) (now : Int) (w : WorldBehavior) (s : Source) :
    Traced (List NewsItem) :=
  tcatch (fetchNewsFromSourceNewT oracle hostnameOf now w s) (fun _ => tpure [])

/-- The pure value the newer fetchNewsFromSource resolves with for one source. -/
def sourceItemsNew (oracle : Source → Except Unit (List ScrapedNewsItem))
    (hostnameOf : String → Option String) (now : Int) (w : WorldBehavior) (s : Source) :
    List NewsItem :=
  match s.type with
  | SourceType.rss =>
    (match w.sourceResult s with
     | Except.ok l => l
     | Except.error _ => [])
  | SourceType.api => []
  | SourceType.scrape =>
    if (scraperResult oracle now s).length == 0 then []
    else convertScrapedToNews hostnameOf (scraperResult oracle now s)

/-- fetchNewsFromCategory, part_008 lines 259-272: fetch each source of the
category with error handling and a 1000 ms delay between sources. -/
def fetchCategorySourcesNewT (oracle : Source → Except Unit (List ScrapedNewsItem))
    (hostnameOf : String → Option String) (now : Int) (w : WorldBehavior) :
    List Source → Traced (List NewsItem)
  | [] => tpure []
  | s :: rest =>
    tbind (fetchNewsFromSourceWithErrorHandlingT oracle hostnameOf now w s) (fun news =>
    tbind (temit (Effect.delayMs 1000)) (fun _ =>
    tbind (fetchCategorySourcesNewT oracle hostnameOf now w rest) (fun more =>
    tpure (news ++ more))))

/-- The category loop of the newer fetchAllNews, part_008 lines 279-285, with
a 500 ms delay between categories. -/
def fetchCategoriesNewT (oracle : Source → Except Unit (List ScrapedNewsItem))
    (hostnameOf : String → Option String) (now : Int) (w : WorldBehavior) :
    List SourceCategory → Traced (List NewsItem)
  | [] => tpure []
  | c :: rest =>
    tbind (fetchCategorySourcesNewT oracle hostnameOf now w c.sources) (fun news =>
    tbind (temit (Effect.delayMs 500)) (fun _ =>
    tbind (fetchCategoriesNewT oracle hostnameOf now w rest) (fun more =>
    tpure (news ++ more))))

/-- fetchAllNews of the newer worker, part_008 lines 275-289. -/
def fetchAllNewsNewT (oracle : Source → Except Unit (List ScrapedNewsItem))
    (hostnameOf : String → Option String) (now : Int) (w : WorldBehavior) :
    Traced (List NewsItem) :=
  fetchCategoriesNewT oracle hostnameOf now w newsSources

/-- A scraped-item oracle on which every fetch throws. -/
def c7oracleFail : Source → Except Unit (List ScrapedNewsItem) :=
  fun _ => Except.error ()

/-- The configured Governo dos Açores source descriptor. -/
def c7govSource : Source :=
  { label := "Governo dos Açores", url := "https://www.azores.gov.pt/pt",
    type := SourceType.scrape }

end NewsWorth

namespace NewsWorth

/-- Unfolding of mergeNewsItems into its three stages. -/
theorem mergeNewsItems_def (e n : List NewsItem) :
    mergeNewsItems e n = ((e ++ uniqueNewItems e n).insertionSort newsDescLe).take 100 := rfl

/-- Bridge between the Bool-valued membership test contains used by the code
and propositional membership. -/
theorem contains_iff_mem_str (l : List String) (s : String) :
    l.contains s = true ↔ s ∈ l := by
  simp [List.contains, List.elem_iff]

/-- Merging a batch against itself filters out every incoming item, because
every url of X occurs in the url set of X. -/
theorem uniqueNewItems_self (X : List NewsItem) : uniqueNewItems X X = [] := by
  unfold uniqueNewItems
  rw [List.filter_eq_nil_iff]
  intro a ha
  have hmem : a.url ∈ existingUrlSet X := List.mem_map_of_mem _ ha
  have hc : (existingUrlSet X).contains a.url = true := (contains_iff_mem_str _ _).mpr hmem
  simp [hc]
  exact hmem

/-- The number of items with a given url equals the count of that url among
the mapped urls. -/
theorem length_filter_url (l : List NewsItem) (u : String) :
    (l.filter (fun x => x.url == u)).length = (l.map (fun x => x.url)).count u := by
  induction l with
  | nil => rfl
  | cons a t ih =>
    by_cases h : a.url = u
    · simp [List.count_cons, h, ih]
    · simp [List.count_cons, h, ih]

/-- When neither the existing collection nor the incoming batch repeats a url,
the deduplicated concatenation has pairwise distinct urls. -/
theorem nodup_merged_urls (e n : List NewsItem)
    (he : (e.map (fun x => x.url)).Nodup) (hn : (n.map (fun x => x.url)).Nodup) :
    ((e ++ uniqueNewItems e n).map (fun x => x.url)).Nodup := by
  rw [List.map_append]
  refine List.Nodup.append he ?_ ?_
  · exact ((List.filter_sublist n).map (fun x => x.url)).nodup hn
  · intro u hu1 hu2
    obtain ⟨x, hx, hxu⟩ := List.mem_map.mp hu2
    have hfalse := (List.mem_filter.mp hx).2
    simp only [Bool.not_eq_true'] at hfalse
    have : ¬ x.url ∈ existingUrlSet e := by
      intro hc
      rw [(contains_iff_mem_str _ _).mpr hc] at hfalse
      exact Bool.noConfusion hfalse
    exact this (by rw [hxu]; exact hu1)

/-- Stability of the modelled platform sort: the items carrying one fixed
timestamp appear in the sorted output exactly as they appear in the input. -/
theorem insertionSort_filter_pub (l : List NewsItem) (t : Int) :
    (l.insertionSort newsDescLe).filter (fun x => x.publishedAt == t) =
      l.filter (fun x => x.publishedAt == t) := by
  have hpair : (l.filter (fun x => x.publishedAt == t)).Pairwise newsDescLe := by
    apply List.pairwise_of_forall_mem_list
    intro a ha b hb
    have ha' := (List.mem_filter.mp ha).2
    have hb' := (List.mem_filter.mp hb).2
    simp only [beq_iff_eq] at ha' hb'
    show b.publishedAt ≤ a.publishedAt
    rw [ha', hb']
  have hsub : List.Sublist (l.filter (fun x => x.publishedAt == t))
      (l.insertionSort newsDescLe) :=
    List.sublist_insertionSort hpair (List.filter_sublist l)
  have hself : (l.filter (fun x => x.publishedAt == t)).filter
      (fun x => x.publishedAt == t) = l.filter (fun x => x.publishedAt == t) :=
    List.filter_eq_self.mpr (fun a ha => (List.mem_filter.mp ha).2)
  have hsub2 : List.Sublist (l.filter (fun x => x.publishedAt == t))
      ((l.insertionSort newsDescLe).filter (fun x => x.publishedAt == t)) := by
    have h2 := hsub.filter (fun x => x.publishedAt == t)
    rwa [hself] at h2
  have hperm : List.Perm
      ((l.insertionSort newsDescLe).filter (fun x => x.publishedAt == t))
      (l.filter (fun x => x.publishedAt == t)) :=
    (List.perm_insertionSort newsDescLe l).filter _
  exact (hsub2.eq_of_length hperm.length_eq.symm).symm

/-- C3 (confirmed). For every existing collection and incoming batch, adjacent
items of the merge output are in weakly descending publishedAt order, and for
every timestamp the items carrying it occur in the output in the same relative
order (and with no additions) as in the concatenation of existing followed by
the surviving incoming items. -/
theorem merge_ordering_stability (e n : List NewsItem) (t : Int) :
    (mergeNewsItems e n).Pairwise (fun a b => b.publishedAt ≤ a.publishedAt) ∧
    ((mergeNewsItems e n).filter (fun x => x.publishedAt == t)).Sublist
      ((e ++ uniqueNewItems e n).filter (fun x => x.publishedAt == t)) := by
  constructor
  · have hs : ((e ++ uniqueNewItems e n).insertionSort newsDescLe).Pairwise newsDescLe :=
      List.sorted_insertionSort newsDescLe _
    exact hs.sublist (List.take_sublist 100 _)
  · rw [mergeNewsItems_def]
    have h1 := (List.take_sublist 100
      ((e ++ uniqueNewItems e n).insertionSort newsDescLe)).filter
      (fun x => x.publishedAt == t)
    rwa [insertionSort_filter_pub] at h1

/-- C1 counterexample. Two incoming items sharing one url, merged into an
empty existing collection, both survive: the output holds two items with that
url, so merge does not retain exactly one item per url. -/
theorem merge_dedup_counterexample :
    c1a.url = c1b.url ∧ c1a ≠ c1b ∧
    ((mergeNewsItems [] [c1a, c1b]).filter (fun x => x.url == "u")).length = 2 := by
  decide

/-- C1 (amended). When neither the existing collection nor the incoming batch
repeats a url internally, the merge output holds at most one item per url,
exactly one per occurring url when the deduplicated concatenation fits the
100-item cap, and any output item whose url occurs in the existing collection
is the existing item itself: a same-url incoming item never survives. -/
theorem merge_dedup_amended (e n : List NewsItem)
    (he : (e.map (fun x => x.url)).Nodup) (hn : (n.map (fun x => x.url)).Nodup) :
    (∀ u : String, ((mergeNewsItems e n).filter (fun x => x.url == u)).length ≤ 1) ∧
    ((e ++ uniqueNewItems e n).length ≤ 100 →
      ∀ u : String, u ∈ (e ++ n).map (fun x => x.url) →
        ((mergeNewsItems e n).filter (fun x => x.url == u)).length = 1) ∧
    (∀ x ∈ mergeNewsItems e n, x.url ∈ e.map (fun x => x.url) → x ∈ e) := by
  have hnd := nodup_merged_urls e n he hn
  have hpermMap : List.Perm
      (((e ++ uniqueNewItems e n).insertionSort newsDescLe).map (fun x => x.url))
      ((e ++ uniqueNewItems e n).map (fun x => x.url)) :=
    (List.perm_insertionSort newsDescLe _).map _
  have hndS := hpermMap.nodup_iff.mpr hnd
  refine ⟨?_, ?_, ?_⟩
  · intro u
    rw [length_filter_url, mergeNewsItems_def]
    have hsub : List.Sublist
        ((((e ++ uniqueNewItems e n).insertionSort newsDescLe).take 100).map
          (fun x => x.url))
        (((e ++ uniqueNewItems e n).insertionSort newsDescLe).map (fun x => x.url)) :=
      (List.take_sublist 100 _).map _
    exact le_trans (hsub.count_le u) (List.nodup_iff_count_le_one.mp hndS u)
  · intro hlen u hu
    rw [length_filter_url, mergeNewsItems_def, List.take_of_length_le
      (by rw [List.length_insertionSort]; exact hlen)]
    rw [hpermMap.count_eq]
    have humem : u ∈ (e ++ uniqueNewItems e n).map (fun x => x.url) := by
      rw [List.map_append] at hu ⊢
      rcases List.mem_append.mp hu with h | h
      · exact List.mem_append.mpr (Or.inl h)
      · by_cases hmem : u ∈ e.map (fun x => x.url)
        · exact List.mem_append.mpr (Or.inl hmem)
        · obtain ⟨x, hx, hxu⟩ := List.mem_map.mp h
          refine List.mem_append.mpr (Or.inr (List.mem_map.mpr ⟨x, ?_, hxu⟩))
          refine List.mem_filter.mpr ⟨hx, ?_⟩
          simp only [Bool.not_eq_true']
          cases hcb : (existingUrlSet e).contains x.url with
          | false => rfl
          | true =>
            exact absurd (by rw [← hxu]; exact (contains_iff_mem_str _ _).mp hcb) hmem
    exact List.count_eq_one_of_mem hnd humem
  · intro x hx hxe
    have hx1 : x ∈ (e ++ uniqueNewItems e n).insertionSort newsDescLe :=
      (List.take_sublist 100 _).mem hx
    have hx2 : x ∈ e ++ uniqueNewItems e n := (List.mem_insertionSort _).mp hx1
    rcases List.mem_append.mp hx2 with h | h
    · exact h
    · exfalso
      have hfalse := (List.mem_filter.mp h).2
      simp only [Bool.not_eq_true'] at hfalse
      have hxe' : x.url ∈ existingUrlSet e := hxe
      rw [(contains_iff_mem_str _ _).mpr hxe'] at hfalse
      exact Bool.noConfusion hfalse

/-- Witness for the amended C1 at a concrete collection and batch. -/
theorem merge_dedup_amended_witness :
    ((mergeNewsItems [c1a] [c1c]).filter (fun x => x.url == "u")).length ≤ 1 ∧
    ((mergeNewsItems [c1a] [c1c]).filter (fun x => x.url == "w")).length = 1 :=
  ⟨(merge_dedup_amended [c1a] [c1c] (by decide) (by decide)).1 "u",
   (merge_dedup_amended [c1a] [c1c] (by decide) (by decide)).2.1 (by decide) "w" (by decide)⟩

/-- C2 counterexample. On a 101-item collection X, merging X against itself
returns 100 items, so the output is shorter than X and not a permutation of
it: the documented 100-item cap breaks idempotence beyond the cap. -/
theorem merge_idempotence_counterexample :
    (mergeNewsItems c2X c2X).length = 100 ∧ c2X.length = 101 := by
  have hx : c2X.length = 101 := by
    rw [c2X, List.length_map, List.length_range]
  constructor
  · rw [mergeNewsItems_def, uniqueNewItems_self, List.append_nil, List.length_take,
      List.length_insertionSort, hx]
    decide
  · exact hx

/-- C2 (amended). For every collection X of at most 100 items (in particular
any collection the pipeline itself persists), merging X against itself only
reorders: the output is a permutation of X, has the same length, and its ids
are a permutation of the ids of X, so no duplicate id is introduced. -/
theorem merge_idempotence_amended (X : List NewsItem) (h : X.length ≤ 100) :
    (mergeNewsItems X X).Perm X ∧ (mergeNewsItems X X).length = X.length ∧
    ((mergeNewsItems X X).map (fun x => x.id)).Perm (X.map (fun x => x.id)) := by
  have hsort : mergeNewsItems X X = X.insertionSort newsDescLe := by
    rw [mergeNewsItems_def, uniqueNewItems_self, List.append_nil]
    exact List.take_of_length_le (by rw [List.length_insertionSort]; exact h)
  have hperm : (mergeNewsItems X X).Perm X := by
    rw [hsort]; exact List.perm_insertionSort _ _
  exact ⟨hperm, hperm.length_eq, hperm.map _⟩

/-- Witness for the amended C2 at a concrete two-item collection. -/
theorem merge_idempotence_amended_witness :
    (mergeNewsItems [c1a, c1c] [c1a, c1c]).Perm [c1a, c1c] ∧
    (mergeNewsItems [c1a, c1c] [c1a, c1c]).length = ([c1a, c1c] : List NewsItem).length ∧
    ((mergeNewsItems [c1a, c1c] [c1a, c1c]).map (fun x => x.id)).Perm
      (([c1a, c1c] : List NewsItem).map (fun x => x.id)) :=
  merge_idempotence_amended [c1a, c1c] (by decide)

/-- Unfolding of the b64Encode step on a full three-byte group. -/
theorem b64Encode_cons3 (b0 b1 b2 : Nat) (rest : List Nat) :
    b64Encode (b0 :: b1 :: b2 :: rest) =
      b64Char (b0 / 4) :: b64Char (b0 % 4 * 16 + b1 / 16) ::
        b64Char (b1 % 16 * 4 + b2 / 64) :: b64Char (b2 % 64) :: b64Encode rest := rfl

/-- Base64 encoding splits over an append at any whole-group boundary. -/
theorem b64Encode_append_of_mod3 :
    ∀ (l₁ l₂ : List Nat), l₁.length % 3 = 0 →
      b64Encode (l₁ ++ l₂) = b64Encode l₁ ++ b64Encode l₂
  | [], l₂, _ => by simp [b64Encode]
  | [_], _, h => by simp at h
  | [_, _], _, h => by simp at h
  | a :: b :: c :: rest, l₂, h => by
    have h' : rest.length % 3 = 0 := by
      simp only [List.length_cons] at h
      omega
    rw [List.cons_append, List.cons_append, List.cons_append, b64Encode_cons3,
      b64Encode_cons3, b64Encode_append_of_mod3 rest l₂ h']
    simp

/-- When the first nine characters produce a full block of twelve alphanumeric
base64 characters, the id is that block and depends on nothing after them. -/
theorem generateId_eq_of_alnum_block (u : String)
    (h : (u.data.take 9).length = 9)
    (ha : ((b64Encode ((u.data.take 9).map Char.toNat)).filter isAlphaNum).length = 12) :
    generateId u =
      String.mk ((b64Encode ((u.data.take 9).map Char.toNat)).filter isAlphaNum) := by
  unfold generateId
  conv_lhs => rw [← List.take_append_drop 9 u.data]
  rw [List.map_append, b64Encode_append_of_mod3 _ _ (by rw [List.length_map, h]),
    List.filter_append, List.take_left' ha]

/-- C10 counterexample. The strings of nine question marks followed by A and
by B agree on their first nine characters yet receive different ids, because
the base64 encoding of the shared prefix contains slashes that the
alphanumeric filter removes, letting later characters into the id. -/
theorem id_collision_counterexample :
    "?????????A".data.take 9 = "?????????B".data.take 9 ∧
    ("?????????A" : String) ≠ "?????????B" ∧
    generateId "?????????A" ≠ generateId "?????????B" := by
  decide

/-- C10 (amended). Ids are not unique per url: whenever two url strings agree
on their first nine characters and that shared prefix base64-encodes to twelve
alphanumeric characters (as for any two https urls whose authorities start
with the same letter), generateId assigns them the same id, so only the url
distinguishes such items. -/
theorem id_collision_amended (u₁ u₂ : String)
    (h9 : u₁.data.take 9 = u₂.data.take 9)
    (hlen : 9 ≤ u₁.data.length)
    (halnum : ((b64Encode ((u₁.data.take 9).map Char.toNat)).filter isAlphaNum).length = 12) :
    generateId u₁ = generateId u₂ := by
  have h1 : (u₁.data.take 9).length = 9 := by
    rw [List.length_take]
    omega
  have h2 : (u₂.data.take 9).length = 9 := by
    rw [← h9]
    exact h1
  have ha2 : ((b64Encode ((u₂.data.take 9).map Char.toNat)).filter isAlphaNum).length = 12 := by
    rw [← h9]
    exact halnum
  rw [generateId_eq_of_alnum_block u₁ h1 halnum, generateId_eq_of_alnum_block u₂ h2 ha2, h9]

/-- Witness for the amended C10: two distinct https urls sharing the first
authority letter receive the same id. -/
theorem id_collision_amended_witness :
    ("https://aaa.example" : String) ≠ "https://abc.example" ∧
    generateId "https://aaa.example" = generateId "https://abc.example" :=
  ⟨by decide,
   id_collision_amended "https://aaa.example" "https://abc.example"
     (by decide) (by decide) (by decide)⟩

/-- Every item the RSS loop emits carries the id computed from its own url. -/
theorem parseRSSLoop_id (hostnameOf : String → Option String)
    (dateParse : String → Option Int) (now : Int) :
    ∀ (entries : List RawEntry) (items : List NewsItem),
      parseRSSLoop hostnameOf dateParse now entries = Except.ok items →
      ∀ it ∈ items, it.id = generateId it.url := by
  intro entries
  induction entries with
  | nil =>
    intro items h it hit
    simp only [parseRSSLoop] at h
    cases h
    simp at hit
  | cons e rest ih =>
    intro items h it hit
    rcases het : e.title with _ | tRaw
    · simp only [parseRSSLoop, het] at h
      exact ih items h it hit
    · rcases hel : e.link with _ | lRaw
      · simp only [parseRSSLoop, het, hel] at h
        exact ih items h it hit
      · rcases hed : e.pubDate with _ | d
        · simp only [parseRSSLoop, het, hel, hed] at h
          cases hr : parseRSSLoop hostnameOf dateParse now rest with
          | error err => rw [hr] at h; cases h
          | ok restItems =>
            rw [hr] at h
            cases h
            rcases List.mem_cons.mp hit with h1 | h1
            · rw [h1]; rfl
            · exact ih restItems hr it h1
        · rcases hp : dateParse d with _ | ts
          · simp only [parseRSSLoop, het, hel, hed, hp] at h
            cases h
          · simp only [parseRSSLoop, het, hel, hed, hp] at h
            cases hr : parseRSSLoop hostnameOf dateParse now rest with
            | error err => rw [hr] at h; cases h
            | ok restItems =>
              rw [hr] at h
              cases h
              rcases List.mem_cons.mp hit with h1 | h1
              · rw [h1]; rfl
              · exact ih restItems hr it h1

/-- Every item the scraped-item converter emits carries the id computed from
its own url. -/
theorem convertScrapedToNews_id (hostnameOf : String → Option String)
    (scrapedItems : List ScrapedNewsItem) :
    ∀ it ∈ convertScrapedToNews hostnameOf scrapedItems, it.id = generateId it.url := by
  intro it hit
  obtain ⟨s, _, rfl⟩ := List.mem_map.mp hit
  rfl

/-- C9 (confirmed). The id of a normalized item is the deterministic function
generateId of its url in both acquisition pipelines, so items produced from
equal urls in distinct runs, with distinct acquisition times, date parsers and
url parsers, receive equal ids. -/
theorem stable_id_across_pipelines
    (hostnameOf₁ hostnameOf₂ : String → Option String)
    (dateParse₁ dateParse₂ : String → Option Int) (now₁ now₂ : Int)
    (entries : List RawEntry) (containers : List RawContainer)
    (it₁ it₂ : NewsItem)
    (h₁ : it₁ ∈ parseRSSFeedModel hostnameOf₁ dateParse₁ now₁ entries)
    (h₂ : it₂ ∈ convertScrapedToNews hostnameOf₂
      (parseNewsFromHTMLModel dateParse₂ now₂ containers))
    (hu : it₁.url = it₂.url) :
    it₁.id = it₂.id ∧ it₁.id = generateId it₁.url := by
  have e₁ : it₁.id = generateId it₁.url := by
    unfold parseRSSFeedModel at h₁
    cases hr : parseRSSLoop hostnameOf₁ dateParse₁ now₁ entries with
    | error err => rw [hr] at h₁; simp at h₁
    | ok items =>
      rw [hr] at h₁
      exact parseRSSLoop_id hostnameOf₁ dateParse₁ now₁ entries items hr it₁ h₁
  have e₂ : it₂.id = generateId it₂.url := convertScrapedToNews_id _ _ it₂ h₂
  exact ⟨by rw [e₁, e₂, hu], e₁⟩

/-- Witness for C9 at one RSS entry and one scraped container sharing a url. -/
theorem stable_id_across_pipelines_witness :
    c9rss.id = c9scraped.id ∧ c9rss.id = generateId c9rss.url :=
  stable_id_across_pipelines noHost noHost noDate noDate 7 9
    [c9entry] [c9container] c9rss c9scraped (by decide) (by decide) (by decide)

/-- C5 (code bug in the source). An entry whose date field is absent is
normalized with publishedAt equal to the acquisition time 42, but an entry
whose date field is present and unparseable is not defaulted: the RSS parser
throws out of its loop and its catch discards the whole feed including the
healthy sibling entry, and the HTML parser skips the entry. -/
theorem unparseable_date_code_bug :
    parseRSSFeedModel noHost noDate 42 [c5goodEntry, c5badEntry] = [] ∧
    (parseRSSFeedModel noHost noDate 42 [c5goodEntry]).map
      (fun it => (it.url, it.publishedAt)) = [("http://ok.example", 42)] ∧
    (parseNewsFromHTMLModel noDate 42 [c5goodContainer, c5badContainer]).map
      (fun it => (it.url, it.publishedAt)) = [("http://ok.example", 42)] := by
  decide

/-- Result projection of a sequenced traced computation. -/
theorem tbind_snd {α β : Type} (x : Traced α) (f : α → Traced β) :
    (tbind x f).2 = (match x.2 with
                     | Except.ok a => (f a).2
                     | Except.error e => Except.error e) := by
  obtain ⟨tr, r⟩ := x
  cases r <;> rfl

/-- Result projection of a sequenced traced computation when the first part
succeeds. -/
theorem tbind_snd_ok {α β : Type} {x : Traced α} {a : α} (f : α → Traced β)
    (hx : x.2 = Except.ok a) : (tbind x f).2 = (f a).2 := by
  rw [tbind_snd, hx]

/-- A caught traced computation that succeeded keeps its result. -/
theorem tcatch_snd_ok {α : Type} {x : Traced α} {a : α} (h : Unit → Traced α)
    (hx : x.2 = Except.ok a) : (tcatch x h).2 = Except.ok a := by
  obtain ⟨tr, r⟩ := x
  cases r with
  | ok b => cases hx; rfl
  | error e => cases hx

/-- A unit-valued computation caught with a unit handler always succeeds. -/
theorem tcatch_unit_ok (x : Traced Unit) : (tcatch x (fun _ => tpure ())).2 = Except.ok () := by
  obtain ⟨tr, r⟩ := x
  cases r with
  | ok a => cases a; rfl
  | error e => rfl

/-- fetchNewsFromSource never propagates an error: it resolves with exactly
the pure per-source value sourceItems. -/
theorem fetchNewsFromSourceT_result (w : WorldBehavior) (s : Source) :
    (fetchNewsFromSourceT w s).2 = Except.ok (sourceItems w s) := by
  unfold fetchNewsFromSourceT sourceItems parseRSSFeedT scrapeWebsiteT
  cases hty : s.type with
  | rss =>
    cases hr : w.sourceResult s with
    | ok l => simp [tcatch, tbind, temit, tpure, hr]
    | error e => simp [tcatch, tbind, temit, tpure, hr]
  | api =>
    cases hr : w.sourceResult s with
    | ok l => simp [tcatch, tbind, temit, tpure, hr]
    | error e => simp [tcatch, tbind, temit, tpure, hr]
  | scrape =>
    cases hs : scraperUrl s.label with
    | none =>
      cases hr : w.sourceResult s with
      | ok l => simp [tcatch, tbind, temit, tpure, hr, hs]
      | error e => simp [tcatch, tbind, temit, tpure, hr, hs]
    | some u =>
      cases hr : w.sourceResult s with
      | ok l => simp [tcatch, tbind, temit, tpure, hr, hs]
      | error e => simp [tcatch, tbind, temit, tpure, hr, hs]

/-- The per-category source loop resolves with the concatenation of the
per-source values, never an error. -/
theorem fetchSourcesLoopT_result (w : WorldBehavior) :
    ∀ ss : List Source,
      (fetchSourcesLoopT w ss).2 = Except.ok ((ss.map (sourceItems w)).flatten) := by
  intro ss
  induction ss with
  | nil => rfl
  | cons s rest ih =>
    show (tbind (fetchNewsFromSourceT w s) _).2 = _
    rw [tbind_snd_ok _ (fetchNewsFromSourceT_result w s)]
    rw [tbind_snd_ok _ (show (temit (Effect.delayMs 1000)).2 = Except.ok () from rfl)]
    rw [tbind_snd_ok _ ih]
    rfl

/-- The category loop resolves with the concatenation over all categories. -/
theorem fetchCategoriesLoopT_result (w : WorldBehavior) :
    ∀ cats : List SourceCategory,
      (fetchCategoriesLoopT w cats).2 =
        Except.ok ((cats.map (fun c => ((c.sources.map (sourceItems w)).flatten))).flatten) := by
  intro cats
  induction cats with
  | nil => rfl
  | cons c rest ih =>
    show (tbind (fetchSourcesLoopT w c.sources) _).2 = _
    rw [tbind_snd_ok _ (fetchSourcesLoopT_result w c.sources)]
    rw [tbind_snd_ok _ ih]
    rfl

/-- Reassociation of the nested per-category concatenation into one flat
concatenation over all configured sources. -/
theorem flatten_categories (f : Source → List NewsItem) :
    ∀ cats : List SourceCategory,
      ((cats.map (fun c => ((c.sources.map f).flatten))).flatten) =
        ((((cats.map (fun c => c.sources)).flatten).map f).flatten) := by
  intro cats
  induction cats with
  | nil => rfl
  | cons c rest ih => simp [List.map_append, ih]

/-- fetchAllNews resolves with the flat concatenation of the per-source
values over every configured source. -/
theorem fetchAllNewsT_result (w : WorldBehavior) :
    (fetchAllNewsT w).2 = Except.ok ((allSources.map (sourceItems w)).flatten) := by
  unfold fetchAllNewsT allSources
  rw [fetchCategoriesLoopT_result, flatten_categories]

/-- storeNewsData never propagates an error, whatever the store does. -/
theorem storeNewsDataT_ok (w : WorldBehavior) (news : List NewsItem) :
    (storeNewsDataT w news).2 = Except.ok () :=
  tcatch_unit_ok _

/-- parseRSSFeed at the effect level resolves with the per-world outcome and
degrades a thrown failure to the empty list. -/
theorem parseRSSFeedT_result (w : WorldBehavior) (s : Source) :
    (parseRSSFeedT w s).2 =
      Except.ok (match w.sourceResult s with
                 | Except.ok l => l
                 | Except.error _ => []) := by
  unfold parseRSSFeedT
  cases hr : w.sourceResult s with
  | ok l => simp [tcatch, tbind, temit, tpure, hr]
  | error e => simp [tcatch, tbind, temit, tpure, hr]

/-- The newer routed scraper never propagates an error: it resolves with
exactly the pure scraperResult value. -/
theorem routeToScraperT_result (oracle : Source → Except Unit (List ScrapedNewsItem))
    (now : Int) (s : Source) :
    (routeToScraperT oracle now s).2 = Except.ok (scraperResult oracle now s) := by
  unfold routeToScraperT scraperResult
  cases hr : oracle s with
  | ok l => split_ifs <;> simp [tcatch, tbind, temit, tpure, hr]
  | error e => split_ifs <;> simp [tcatch, tbind, temit, tpure, hr]

/-- The newer scrapeWebsite never propagates an error: empty scrapes resolve
with the empty list and non-empty ones with the converted items. -/
theorem scrapeWebsiteNewT_result (oracle : Source → Except Unit (List ScrapedNewsItem))
    (hostnameOf : String → Option String) (now : Int) (s : Source) :
    (scrapeWebsiteNewT oracle hostnameOf now s).2 =
      Except.ok (if (scraperResult oracle now s).length == 0 then []
                 else convertScrapedToNews hostnameOf (scraperResult oracle now s)) := by
  unfold scrapeWebsiteNewT
  apply tcatch_snd_ok
  rw [tbind_snd_ok _ (routeToScraperT_result oracle now s)]
  cases hc : (scraperResult oracle now s).length == 0 <;> simp [hc, tpure]

/-- The newer fetchNewsFromSource resolves with its pure per-source value. -/
theorem fetchNewsFromSourceNewT_result (oracle : Source → Except Unit (List ScrapedNewsItem))
    (hostnameOf : String → Option String) (now : Int) (w : WorldBehavior) (s : Source) :
    (fetchNewsFromSourceNewT oracle hostnameOf now w s).2 =
      Except.ok (sourceItemsNew oracle hostnameOf now w s) := by
  unfold fetchNewsFromSourceNewT sourceItemsNew
  cases hty : s.type with
  | rss =>
    apply tcatch_snd_ok
    exact parseRSSFeedT_result w s
  | api =>
    apply tcatch_snd_ok
    rfl
  | scrape =>
    apply tcatch_snd_ok
    exact scrapeWebsiteNewT_result oracle hostnameOf now s

/-- The newer error-handling wrapper resolves with the same per-source value. -/
theorem fetchNewsFromSourceWithErrorHandlingT_result
    (oracle : Source → Except Unit (List ScrapedNewsItem))
    (hostnameOf : String → Option String) (now : Int) (w : WorldBehavior) (s : Source) :
    (fetchNewsFromSourceWithErrorHandlingT oracle hostnameOf now w s).2 =
      Except.ok (sourceItemsNew oracle hostnameOf now w s) := by
  unfold fetchNewsFromSourceWithErrorHandlingT
  exact tcatch_snd_ok _ (fetchNewsFromSourceNewT_result oracle hostnameOf now w s)

/-- The newer per-category loop resolves with the concatenation of the
per-source values, never an error. -/
theorem fetchCategorySourcesNewT_result (oracle : Source → Except Unit (List ScrapedNewsItem))
    (hostnameOf : String → Option String) (now : Int) (w : WorldBehavior) :
    ∀ ss : List Source,
      (fetchCategorySourcesNewT oracle hostnameOf now w ss).2 =
        Except.ok ((ss.map (sourceItemsNew oracle hostnameOf now w)).flatten) := by
  intro ss
  induction ss with
  | nil => rfl
  | cons s rest ih =>
    show (tbind (fetchNewsFromSourceWithErrorHandlingT oracle hostnameOf now w s) _).2 = _
    rw [tbind_snd_ok _ (fetchNewsFromSourceWithErrorHandlingT_result oracle hostnameOf now w s)]
    rw [tbind_snd_ok _ (show (temit (Effect.delayMs 1000)).2 = Except.ok () from rfl)]
    rw [tbind_snd_ok _ ih]
    rfl

/-- The newer category loop resolves with the concatenation over categories. -/
theorem fetchCategoriesNewT_result (oracle : Source → Except Unit (List ScrapedNewsItem))
    (hostnameOf : String → Option String) (now : Int) (w : WorldBehavior) :
    ∀ cats : List SourceCategory,
      (fetchCategoriesNewT oracle hostnameOf now w cats).2 =
        Except.ok ((cats.map (fun c =>
          ((c.sources.map (sourceItemsNew oracle hostnameOf now w)).flatten))).flatten) := by
  intro cats
  induction cats with
  | nil => rfl
  | cons c rest ih =>
    show (tbind (fetchCategorySourcesNewT oracle hostnameOf now w c.sources) _).2 = _
    rw [tbind_snd_ok _ (fetchCategorySourcesNewT_result oracle hostnameOf now w c.sources)]
    rw [tbind_snd_ok _ (show (temit (Effect.delayMs 500)).2 = Except.ok () from rfl)]
    rw [tbind_snd_ok _ ih]
    rfl

/-- The newer fetchAllNews resolves with the flat concatenation of the
per-source values over every configured source. -/
theorem fetchAllNewsNewT_result (oracle : Source → Except Unit (List ScrapedNewsItem))
    (hostnameOf : String → Option String) (now : Int) (w : WorldBehavior) :
    (fetchAllNewsNewT oracle hostnameOf now w).2 =
      Except.ok ((allSources.map (sourceItemsNew oracle hostnameOf now w)).flatten) := by
  unfold fetchAllNewsNewT allSources
  rw [fetchCategoriesNewT_result, flatten_categories]

/-- C7 counterexample. In the newer pipeline the claim's cited
fetchNewsFromSourceWithErrorHandling does not return the empty list when the
Governo dos Açores source fails: the scraper's catch returns its built-in
fallback test item, which is converted and resolved with. -/
theorem source_failure_counterexample :
    c7oracleFail c7govSource = Except.error () ∧
    (fetchNewsFromSourceWithErrorHandlingT c7oracleFail noHost 42 c7wFail c7govSource).2 =
      Except.ok (convertScrapedToNews noHost [govFallbackItem 42]) ∧
    convertScrapedToNews noHost [govFallbackItem 42] ≠ [] :=
  ⟨rfl, rfl, by decide⟩

/-- C7 (amended). In both pipelines a source failure never propagates and
never aborts sibling sources: the per-source fetchers always resolve,
fetchAllNews resolves with the concatenation over every configured source, and
one source's contribution depends only on that source's own outcome. In the
older pipeline every retrieval or parse failure degrades to the empty list; in
the newer pipeline feed failures and most scraper failures degrade to the
empty list, but the Governo dos Açores and Diário da República scrapers
resolve with a built-in fallback test item from their catch instead. -/
theorem source_failure_isolation_amended (w : WorldBehavior)
    (oracle : Source → Except Unit (List ScrapedNewsItem))
    (hostnameOf : String → Option String) (now : Int) :
    (∀ s : Source, (fetchNewsFromSourceT w s).2 = Except.ok (sourceItems w s)) ∧
    (∀ s : Source, w.sourceResult s = Except.error () → sourceItems w s = []) ∧
    (fetchAllNewsT w).2 = Except.ok ((allSources.map (sourceItems w)).flatten) ∧
    (∀ w' : WorldBehavior, ∀ s : Source, w.sourceResult s = w'.sourceResult s →
      sourceItems w s = sourceItems w' s) ∧
    (∀ s : Source, (fetchNewsFromSourceWithErrorHandlingT oracle hostnameOf now w s).2 =
      Except.ok (sourceItemsNew oracle hostnameOf now w s)) ∧
    (∀ s : Source, s.type = SourceType.rss → w.sourceResult s = Except.error () →
      sourceItemsNew oracle hostnameOf now w s = []) ∧
    (∀ s : Source, s.type = SourceType.scrape → oracle s = Except.error () →
      sourceItemsNew oracle hostnameOf now w s =
        (if strIncludes s.label "Governo dos Açores" then
          convertScrapedToNews hostnameOf [govFallbackItem now]
        else if strIncludes s.label "Diário da República" then
          convertScrapedToNews hostnameOf [dreFallbackItem now]
        else [])) ∧
    (fetchAllNewsNewT oracle hostnameOf now w).2 =
      Except.ok ((allSources.map (sourceItemsNew oracle hostnameOf now w)).flatten) ∧
    (∀ (oracle' : Source → Except Unit (List ScrapedNewsItem)) (w' : WorldBehavior)
      (s : Source), oracle s = oracle' s → w.sourceResult s = w'.sourceResult s →
      sourceItemsNew oracle hostnameOf now w s =
        sourceItemsNew oracle' hostnameOf now w' s) := by
  refine ⟨fetchNewsFromSourceT_result w, ?_, fetchAllNewsT_result w, ?_,
    fetchNewsFromSourceWithErrorHandlingT_result oracle hostnameOf now w, ?_, ?_,
    fetchAllNewsNewT_result oracle hostnameOf now w, ?_⟩
  · intro s hs
    unfold sourceItems
    rw [hs]
  · intro w' s hs
    unfold sourceItems
    rw [hs]
  · intro s hty hs
    unfold sourceItemsNew
    rw [hty, hs]
  · intro s hty hs
    unfold sourceItemsNew scraperResult
    rw [hty, hs]
    split_ifs <;> simp_all
  · intro oracle' w' s h1 h2
    unfold sourceItemsNew scraperResult
    rw [h1, h2]

/-- Witness for the amended C7: with every fetch failing, the Governo dos
Açores source resolves with the converted fallback test item and the FAO feed
source contributes the empty list. -/
theorem source_failure_isolation_amended_witness :
    (fetchNewsFromSourceWithErrorHandlingT c7oracleFail noHost 42 c7wFail c7govSource).2 =
      Except.ok (sourceItemsNew c7oracleFail noHost 42 c7wFail c7govSource) ∧
    sourceItemsNew c7oracleFail noHost 42 c7wFail c7govSource =
      (if strIncludes c7govSource.label "Governo dos Açores" then
        convertScrapedToNews noHost [govFallbackItem 42]
      else if strIncludes c7govSource.label "Diário da República" then
        convertScrapedToNews noHost [dreFallbackItem 42]
      else []) ∧
    sourceItems c7wFail faoSource = [] :=
  ⟨(source_failure_isolation_amended c7wFail c7oracleFail noHost 42).2.2.2.2.1 c7govSource,
   (source_failure_isolation_amended c7wFail c7oracleFail noHost 42).2.2.2.2.2.2.1
     c7govSource rfl rfl,
   (source_failure_isolation_amended c7wFail c7oracleFail noHost 42).2.1 faoSource rfl⟩

/-- C6 counterexample. With every source yielding an item and a store whose
writes all throw during the save step, the manual trigger still answers the
success payload with the full fetched count: a store unavailable during save
does not produce the failure response the claim reserves for it. -/
theorem trigger_success_counterexample :
    c6kv.putResult "latest-news" = Except.error () ∧
    (postHandlerT c6w).2 = Except.ok { success := true, count := 7, status := 200 } := by
  constructor
  · rfl
  · rfl

/-- C6 (amended). Under every modelled source and store behaviour, including
total source failure and a store that rejects reads or writes, the manual
trigger answers the success payload whose count is the length of the fetched
batch; store errors are swallowed inside storeNewsData, so the failure branch
is never taken. -/
theorem trigger_success_amended (w : WorldBehavior) :
    (postHandlerT w).2 = Except.ok
      { success := true, count := ((allSources.map (sourceItems w)).flatten).length,
        status := 200 } := by
  unfold postHandlerT
  apply tcatch_snd_ok
  rw [tbind_snd_ok _ (fetchAllNewsT_result w)]
  rw [tbind_snd_ok _ (storeNewsDataT_ok w _)]
  rfl

/-- The trace of the newer read-only handler is one of three fixed KV-read
traces, for every store behaviour. -/
theorem newsLoaderHandlerT_trace (w : WorldBehavior) :
    (newsLoaderHandlerT w).1 = [] ∨
    (newsLoaderHandlerT w).1 = [Effect.kvGet "latest-news"] ∨
    (newsLoaderHandlerT w).1 =
      [Effect.kvGet "latest-news", Effect.kvGet "fetch-metadata"] := by
  cases hkv : w.kv with
  | none =>
    left
    simp [newsLoaderHandlerT, hkv, tbind, tpure]
  | some kv =>
    cases hl : kv.latestNews with
    | error e =>
      right; left
      simp [newsLoaderHandlerT, newsLoaderReadT, hkv, hl, tbind, tpure, temit]
    | ok stored =>
      cases hm : kv.metadata with
      | error e =>
        right; right
        simp [newsLoaderHandlerT, newsLoaderReadT, hkv, hl, hm, tbind, tpure, temit]
      | ok m =>
        right; right
        simp [newsLoaderHandlerT, newsLoaderReadT, hkv, hl, hm, tbind, tpure, temit]

/-- When the stored collection is present and non-empty, the older GET /news
handler performs exactly its two KV reads. -/
theorem getNewsHandlerT_trace_nonempty (w : WorldBehavior) (nowIso : String)
    (kvb : KVBehavior) (stored : List NewsItem)
    (hkv : w.kv = some kvb) (hl : kvb.latestNews = Except.ok (some stored))
    (hne : stored ≠ []) :
    (getNewsHandlerT w nowIso).1 =
      [Effect.kvGet "latest-news", Effect.kvGet "fetch-metadata"] := by
  have hlen : (stored.length == 0) = false := by
    rw [beq_eq_false_iff_ne]
    intro h0
    exact hne (List.length_eq_zero.mp h0)
  cases hm : kvb.metadata with
  | error e =>
    simp [getNewsHandlerT, readStoredT, hkv, hl, hm, hlen, tbind, tpure, temit]
  | ok m =>
    simp [getNewsHandlerT, readStoredT, hkv, hl, hm, hlen, tbind, tpure, temit]

/-- C4 counterexample. On an empty store, the older read-only endpoint GET
/news does invoke acquisition: its trace contains an upstream fetch of the FAO
feed, contradicting the claim that handling a read performs no fetch for every
store state. -/
theorem readonly_endpoint_counterexample :
    Effect.upstreamFetch "https://www.fao.org/agroecology/en/" ∈
      (getNewsHandlerT c4w "now").1 := by
  decide

/-- C4 (amended). The newer read-only endpoint GET /news-loader never fetches
from any upstream source, for every request and store state; the older GET
/news endpoint does so only when the stored collection is absent or empty —
whenever a non-empty collection is stored, handling it performs no upstream
fetch. -/
theorem readonly_endpoint_amended (w : WorldBehavior) (nowIso : String) :
    (∀ u : String, Effect.upstreamFetch u ∉ (newsLoaderHandlerT w).1) ∧
    (∀ (kvb : KVBehavior) (stored : List NewsItem),
      w.kv = some kvb → kvb.latestNews = Except.ok (some stored) → stored ≠ [] →
      ∀ u : String, Effect.upstreamFetch u ∉ (getNewsHandlerT w nowIso).1) := by
  constructor
  · intro u
    rcases newsLoaderHandlerT_trace w with h | h | h <;> rw [h] <;> simp
  · intro kvb stored hkv hl hne u
    rw [getNewsHandlerT_trace_nonempty w nowIso kvb stored hkv hl hne]
    simp

/-- Witness for the amended C4 at a world holding one stored item. -/
theorem readonly_endpoint_amended_witness :
    Effect.upstreamFetch "https://www.uac.pt" ∉ (newsLoaderHandlerT c4wStored).1 ∧
    Effect.upstreamFetch "https://www.uac.pt" ∉ (getNewsHandlerT c4wStored "now").1 :=
  ⟨(readonly_endpoint_amended c4wStored "now").1 "https://www.uac.pt",
   (readonly_endpoint_amended c4wStored "now").2 c4kvStored [c1a] rfl rfl
     (by decide) "https://www.uac.pt"⟩

/-- C8 (confirmed). On the initial load with the offline switch unset, when
the live request fails in any modelled way (timeout, transport error, non-ok
HTTP status, or an unsuccessful payload) and the bundled snapshot loads, the
client resolves with the snapshot items and never with an error; an error
propagates only when the snapshot fallback itself fails. -/
theorem client_fallback (live : Except LiveFailure LiveResponse)
    (fixtureData : Except Unit (List NewsItem)) (items : List NewsItem)
    (hlive : ∀ resp, live = Except.ok resp → resp.httpOk = false ∨ resp.success = false)
    (hfix : fixtureData = Except.ok items) :
    loadStoredNews false live fixtureData = Except.ok (LoadResult.fixture items) ∧
    (∀ (live' : Except LiveFailure LiveResponse) (fix' : Except Unit (List NewsItem)),
      loadStoredNews false live' fix' = Except.error () → fix' = Except.error ()) := by
  constructor
  · cases live with
    | error e => simp [loadStoredNews, fallbackLoad, hfix]
    | ok resp =>
      rcases hlive resp rfl with h | h
      · simp [loadStoredNews, fallbackLoad, h, hfix]
      · cases hh : resp.httpOk <;> simp [loadStoredNews, fallbackLoad, hh, h, hfix]
  · intro live' fix' h
    cases fix' with
    | error e => rfl
    | ok l =>
      exfalso
      cases live' with
      | error e => simp [loadStoredNews, fallbackLoad] at h
      | ok resp =>
        cases h1 : resp.httpOk <;> cases h2 : resp.success <;>
          simp [loadStoredNews, fallbackLoad, h1, h2] at h

/-- Witness for C8: a timed-out live endpoint with a loadable snapshot
resolves with the snapshot items. -/
theorem client_fallback_witness :
    loadStoredNews false (Except.error LiveFailure.timeout) (Except.ok [c1a]) =
      Except.ok (LoadResult.fixture [c1a]) :=
  (client_fallback (Except.error LiveFailure.timeout) (Except.ok [c1a]) [c1a]
    (fun _ h => Except.noConfusion h) rfl).1

end NewsWorth
